import Mathlib

/-!
# Verification of the Jarvis gesture classification and dispatch core

Shallow embedding of the gesture-control core of the Jarvis repository:

* `src/jarvis/gestures/detector.py`  — `HandLandmarks.get_extended_fingers`,
  `HandLandmarks.finger_is_extended`;
* `src/jarvis/gestures/recognizer.py` — `GestureRecognizer._classify_gesture`,
  `GestureRecognizer._normalized_distance`;
* `src/jarvis/gestures/mappings.py`  — `GestureType`, `GESTURE_ACTIONS`,
  `get_gesture_action`;
* `src/jarvis/main.py`               — `JarvisController._handle_gesture`,
  `JarvisController._move_cursor`.

Modelling conventions (stated once, used throughout):

* Python floats are modelled as exact rationals (`ℚ`).  All float literals
  appearing in the source (`0.22`, `0.2`, `0.3`, `0.5`, `2.0`, `15`, …) are
  taken at their decimal value.
* Euclidean distances are represented by their *squares* (`distSq2`,
  `normSq3`): every use of a distance in the source is either a comparison
  between two distances or a comparison of a normalized distance against a
  nonnegative threshold, and for nonnegative reals `a < b ↔ a^2 < b^2`, so
  the squared model is observation-equivalent and stays inside `ℚ`.
  Correspondingly `_normalized_distance` is modelled by the *square* of its
  return value (`normalizedDistanceSq`): its sentinel `1.0` squares to `1`,
  and its guard `hand_size < 1` is equivalent to `hand_size² < 1`.
* Python's `int()` (truncation toward zero) is `pyInt`.
* Side effects (`pyautogui` calls, `self._say`) are modelled as an emitted
  list of `DeviceAction`; mutable `self` fields become a `DispatchState`
  threaded through `handleGesture`.
-/

/-- A single 3-D landmark (image-space x, y and relative depth z),
one row of the `landmarks : np.ndarray` field of `HandLandmarks`. -/
structure Point3 where
  x : ℚ
  y : ℚ
  z : ℚ
deriving DecidableEq, Repr

/-- Squared planar (x, y) distance: the square of
`np.linalg.norm(p[:2] - q[:2])`. -/
def distSq2 (p q : Point3) : ℚ :=
  (p.x - q.x) ^ 2 + (p.y - q.y) ^ 2

/-- Squared full 3-D distance: the square of `np.linalg.norm(p - q)`. -/
def normSq3 (p q : Point3) : ℚ :=
  (p.x - q.x) ^ 2 + (p.y - q.y) ^ 2 + (p.z - q.z) ^ 2

/-- The `HandLandmarks` dataclass of `detector.py`, restricted to the two
fields the classification path reads: the landmark array (index-addressed
by the fixed anatomical scheme, indices 0–20; only those indices are ever
read) and the handedness label (a string, compared against `"Right"` in the
source).  The `confidence` and `bbox` fields are never read by the functions
modelled here and are omitted. -/
structure HandLandmarks where
  landmarks : ℕ → Point3
  handedness : String

/-- Build a hand from an explicit list of landmark points (missing entries
default to the origin); used for concrete test frames. -/
def handOfList (pts : List Point3) (hd : String) : HandLandmarks :=
  ⟨fun i => pts.getD i ⟨0, 0, 0⟩, hd⟩

/-- `HandLandmarks.finger_is_extended` (detector.py): a non-thumb digit is
extended iff its tip is planar-farther from the wrist (landmark 0) than its
PIP landmark is.  The source compares `tip_dist > pip_dist`; we compare the
squares. -/
def fingerIsExtended (h : HandLandmarks) (pip tip : ℕ) : Bool :=
  distSq2 (h.landmarks tip) (h.landmarks 0) > distSq2 (h.landmarks pip) (h.landmarks 0)

/-- The extension status of the five digits: the set/list `extended`
returned by `get_extended_fingers` (each digit occurs at most once, so a
record of five booleans carries the same information as the Python list). -/
structure Fingers where
  thumb : Bool
  index : Bool
  middle : Bool
  ring : Bool
  pinky : Bool
deriving DecidableEq, Repr

/-- `len(extended)` for the Python list built by `get_extended_fingers`. -/
def Fingers.count (f : Fingers) : ℕ :=
  (if f.thumb then 1 else 0) + (if f.index then 1 else 0) +
    (if f.middle then 1 else 0) + (if f.ring then 1 else 0) +
    (if f.pinky then 1 else 0)

/-- `HandLandmarks.get_extended_fingers` (detector.py).  Thumb: lateral
x-comparison of thumb tip (landmark 4) against thumb MCP (landmark 2),
with the direction flipped by handedness.  Other digits: `finger_is_extended`
with their `[mcp, pip, dip, tip]` landmark quadruples (only pip and tip are
read). -/
def getExtendedFingers (h : HandLandmarks) : Fingers where
  thumb :=
    if h.handedness = "Right" then (h.landmarks 4).x < (h.landmarks 2).x
    else (h.landmarks 4).x > (h.landmarks 2).x
  index := fingerIsExtended h 6 8
  middle := fingerIsExtended h 10 12
  ring := fingerIsExtended h 14 16
  pinky := fingerIsExtended h 18 20

/-- The `GestureType` enumeration of mappings.py, all twelve variants. -/
inductive GestureType where
  | none
  | openPalm
  | fist
  | point
  | peace
  | thumbsUp
  | thumbsDown
  | pinch
  | threeFingers
  | rock
  | okSign
  | hook
deriving DecidableEq, Repr

/-- `GestureRecognizer.PINCH_THRESHOLD = 0.22` (recognizer.py). -/
def PINCH_THRESHOLD : ℚ := 22 / 100

/-- `GestureRecognizer._classify_gesture` (recognizer.py), with the
thumb-index distance passed as its square and therefore compared against
`PINCH_THRESHOLD ^ 2`.  `thumbY`/`wristY` are `hand.thumb_tip[1]` and
`hand.wrist[1]`, the only parts of `hand` the source function reads.
The thumb-orientation block returns in its two matched cases and otherwise
falls through to the later checks, which is what the chained conditions
reproduce. -/
def classifyGesture (ext : Fingers) (thumbIndexDistSq : ℚ)
    (thumbY wristY : ℚ) : GestureType :=
  if thumbIndexDistSq < PINCH_THRESHOLD ^ 2 then
    if ext.middle ∧ ext.ring ∧ ext.pinky then GestureType.okSign
    else GestureType.pinch
  else if ext.count = 0 then GestureType.fist
  else if ext.count = 1 ∧ ext.thumb ∧ thumbY < wristY - 15 then GestureType.thumbsUp
  else if ext.count = 1 ∧ ext.thumb ∧ thumbY > wristY + 15 then GestureType.thumbsDown
  else if ext.index ∧ ext.count ≤ 2 ∧
      (ext.count = 1 ∨ (ext.count = 2 ∧ ext.thumb)) then GestureType.point
  else if ext.count = 2 ∧ ext.index ∧ ext.middle then GestureType.peace
  else if ext.count = 2 ∧ ext.index ∧ ext.pinky then GestureType.rock
  else if ext.count = 3 ∧ ext.index ∧ ext.middle ∧ ext.ring then GestureType.threeFingers
  else if ext.count ≥ 3 then GestureType.openPalm
  else GestureType.none

/-- `GestureRecognizer._normalized_distance` applied (as in `recognize`) to
thumb tip (landmark 4) and index tip (landmark 8), modelled by the square of
its return value.  Hand size reference: full 3-D distance from landmark 9
(middle MCP) to the wrist; guard `hand_size < 1` becomes `hand_size² < 1`;
sentinel `1.0` squares to `1`; `(d / hand_size)² = d² / hand_size²`. -/
def normalizedDistanceSq (h : HandLandmarks) : ℚ :=
  let handSizeSq := normSq3 (h.landmarks 9) (h.landmarks 0)
  if handSizeSq < 1 then 1
  else distSq2 (h.landmarks 4) (h.landmarks 8) / handSizeSq

/-- Per-frame classification as performed by `GestureRecognizer.recognize`:
extended fingers and the normalized thumb-index distance are extracted from
the landmarks and fed to `_classify_gesture`. -/
def classifyFrame (h : HandLandmarks) : GestureType :=
  classifyGesture (getExtendedFingers h) (normalizedDistanceSq h)
    (h.landmarks 4).y (h.landmarks 0).y

/-- The `GestureAction` dataclass of mappings.py. -/
structure GestureAction where
  gesture : GestureType
  name : String
  description : String
  actionType : String
  command : Option String
  continuous : Bool
deriving DecidableEq, Repr

/-- The `GESTURE_ACTIONS` dictionary of mappings.py as a lookup function:
`gestureActions g` is `GESTURE_ACTIONS.get(g)`, i.e. `get_gesture_action g`.
`NONE` and `HOOK` have no entry. -/
def gestureActions : GestureType → Option GestureAction
  | GestureType.openPalm => some ⟨GestureType.openPalm, "Cursor Mode",
      "Move cursor following palm position", "mouse", some "move", true⟩
  | GestureType.fist => some ⟨GestureType.fist, "Drag Mode",
      "Click and drag while fist is held", "mouse", some "drag", true⟩
  | GestureType.point => some ⟨GestureType.point, "Left Click",
      "Single left click when gesture detected", "mouse", some "left_click", false⟩
  | GestureType.peace => some ⟨GestureType.peace, "Right Click",
      "Right click when peace sign shown", "mouse", some "right_click", false⟩
  | GestureType.thumbsUp => some ⟨GestureType.thumbsUp, "Scroll Up",
      "Scroll up while thumb up is held", "mouse", some "scroll_up", true⟩
  | GestureType.thumbsDown => some ⟨GestureType.thumbsDown, "Scroll Down",
      "Scroll down while thumb down is held", "mouse", some "scroll_down", true⟩
  | GestureType.pinch => some ⟨GestureType.pinch, "Precision Mode",
      "Fine cursor control when pinching", "mouse", some "precision", true⟩
  | GestureType.threeFingers => some ⟨GestureType.threeFingers, "Middle Click",
      "Middle click for opening links in new tab", "mouse", some "middle_click", false⟩
  | GestureType.rock => some ⟨GestureType.rock, "Voice Activate",
      "Activate voice command mode", "system", some "voice_activate", false⟩
  | GestureType.okSign => some ⟨GestureType.okSign, "Confirm",
      "Confirm current action or selection", "keyboard", some "enter", false⟩
  | GestureType.none => Option.none
  | GestureType.hook => Option.none

/-- `SCREEN_MARGIN = 30` (config.py). -/
def SCREEN_MARGIN : Int := 30

/-- Python `int()`: truncation toward zero. -/
def pyInt (q : ℚ) : Int :=
  if 0 ≤ q then ⌊q⌋ else -⌊-q⌋

/-- One axis of the exponential smoothing at the end of
`JarvisController._move_cursor` (main.py:398-407):
`int(last + (screen - last) * (1 - smoothing))` with the hard-coded
`smoothing = 0.3`. -/
def smoothStep (last target : Int) : Int :=
  let smoothing : ℚ := 3 / 10
  pyInt ((last : ℚ) + ((target : ℚ) - (last : ℚ)) * (1 - smoothing))

/-- The dimensions `self.screen_width, self.screen_height` obtained from
`pyautogui.size()` at controller construction. -/
structure ScreenSize where
  screenW : Int
  screenH : Int
deriving DecidableEq, Repr

/-- The pure computation of `JarvisController._move_cursor` (main.py):
map the palm position through the central-60% active zone to screen
coordinates, truncate to `int`, clamp to the screen margins, substitute the
target for a never-recorded previous position `(0, 0)`, and smooth.
Returns the emitted (and recorded) cursor position. -/
def moveCursorCalc (c : ScreenSize) (lastX lastY : Int)
    (palmX palmY fw fh : ℚ) : Int × Int :=
  let marginX := fw * (2 / 10)
  let marginY := fh * (2 / 10)
  let normX := max 0 (min 1 ((palmX - marginX) / (fw - 2 * marginX)))
  let normY := max 0 (min 1 ((palmY - marginY) / (fh - 2 * marginY)))
  let screenX := pyInt (normX * (c.screenW : ℚ))
  let screenY := pyInt (normY * (c.screenH : ℚ))
  let screenX := max SCREEN_MARGIN (min screenX (c.screenW - SCREEN_MARGIN))
  let screenY := max SCREEN_MARGIN (min screenY (c.screenH - SCREEN_MARGIN))
  let lastX0 := if lastX = 0 ∧ lastY = 0 then screenX else lastX
  let lastY0 := if lastX = 0 ∧ lastY = 0 then screenY else lastY
  (smoothStep lastX0 screenX, smoothStep lastY0 screenY)

/-- The device actions the dispatcher emits (its `pyautogui` calls and the
voice-activation signal of the ROCK branch). -/
inductive DeviceAction where
  | pointerMove (x y : Int)
  | pointerDown
  | pointerUp
  | clickLeft
  | clickRight
  | clickMiddle
  | scroll (amount : Int)
  | volumeUp
  | volumeDown
  | voiceActivate
deriving DecidableEq, Repr

/-- The mutable `self` fields of `JarvisController` read or written by
`_handle_gesture` / `_move_cursor`: `_last_cursor_pos`, `_gesture_cooldown`,
`_dragging`, `_volume_mode`, `_volume_start_y`, `_current_volume`,
`_selection_mode`.  The `_selection_start` field is written (from
`pyautogui.position()`) but never read anywhere in the repository, so it is
omitted. -/
structure DispatchState where
  lastCursorX : Int
  lastCursorY : Int
  cooldown : ℚ
  dragging : Bool
  volumeMode : Bool
  volumeStartY : ℚ
  currentVolume : Int
  selectionMode : Bool
deriving DecidableEq, Repr

/-- The field initializations in `JarvisController.__init__`:
`(0, 0)`, `0.0`, `False`, `False`, `0`, `50`, `False`. -/
def initialState : DispatchState :=
  ⟨0, 0, 0, false, false, 0, 50, false⟩

/-- `self._move_cursor(palm, frame_w, frame_h)` as used inside
`_handle_gesture`: computes the new cursor position, records it in
`_last_cursor_pos` and emits the `pyautogui.moveTo` as a `pointerMove`. -/
def moveCursorStep (c : ScreenSize) (s : DispatchState)
    (palmX palmY fw fh : ℚ) : DispatchState × List DeviceAction :=
  let p := moveCursorCalc c s.lastCursorX s.lastCursorY palmX palmY fw fh
  ({ s with lastCursorX := p.1, lastCursorY := p.2 },
   [DeviceAction.pointerMove p.1 p.2])

/-- The `if/elif` chain of `_handle_gesture` (main.py:273-364), i.e.
everything between the cooldown gate and the final forced drag release.
Gestures without a branch (`NONE`, `HOOK`) change nothing and emit
nothing. -/
def gestureBranch (c : ScreenSize) (s : DispatchState) (g : GestureType)
    (held : Bool) (palmX palmY fw fh now : ℚ) : DispatchState × List DeviceAction :=
  match g with
  | GestureType.openPalm =>
      if held then moveCursorStep c s palmX palmY fw fh else (s, [])
  | GestureType.point =>
      if held then ({ s with cooldown := now + 5 / 10 }, [DeviceAction.clickLeft])
      else (s, [])
  | GestureType.peace =>
      if held then ({ s with cooldown := now + 5 / 10 }, [DeviceAction.clickRight])
      else (s, [])
  | GestureType.fist =>
      if held then
        let sd := if ¬s.dragging then ({ s with dragging := true }, [DeviceAction.pointerDown])
          else (s, ([] : List DeviceAction))
        let mv := moveCursorStep c sd.1 palmX palmY fw fh
        (mv.1, sd.2 ++ mv.2)
      else (s, [])
  | GestureType.thumbsUp =>
      if held then ({ s with cooldown := now + 2 / 10 }, [DeviceAction.scroll 3])
      else (s, [])
  | GestureType.thumbsDown =>
      if held then ({ s with cooldown := now + 2 / 10 }, [DeviceAction.scroll (-3)])
      else (s, [])
  | GestureType.threeFingers =>
      if held then ({ s with cooldown := now + 5 / 10 }, [DeviceAction.clickMiddle])
      else (s, [])
  | GestureType.pinch =>
      if held then
        if ¬s.volumeMode then
          ({ s with volumeMode := true, volumeStartY := palmY }, [])
        else
          let deltaY := s.volumeStartY - palmY
          let volumeChange := pyInt (deltaY / 3)
          let newVolume := max 0 (min 100 (s.currentVolume + volumeChange))
          if newVolume ≠ s.currentVolume then
            let acts :=
              if newVolume > s.currentVolume then
                List.replicate (min 5 (newVolume - s.currentVolume)).toNat DeviceAction.volumeUp
              else
                List.replicate (min 5 (s.currentVolume - newVolume)).toNat DeviceAction.volumeDown
            ({ s with currentVolume := newVolume, volumeStartY := palmY }, acts)
          else (s, [])
      else
        if s.volumeMode then ({ s with volumeMode := false }, []) else (s, [])
  | GestureType.rock =>
      if held then ({ s with cooldown := now + 2 }, [DeviceAction.voiceActivate])
      else (s, [])
  | GestureType.okSign =>
      if held then
        if ¬s.selectionMode then
          ({ s with selectionMode := true }, [DeviceAction.pointerDown])
        else moveCursorStep c s palmX palmY fw fh
      else
        if s.selectionMode then ({ s with selectionMode := false }, [DeviceAction.pointerUp])
        else (s, [])
  | GestureType.none => (s, [])
  | GestureType.hook => (s, [])

/-- The forced drag release at the end of `_handle_gesture`
(main.py:366-369): if the gesture is not FIST and a drag is pending,
emit `pyautogui.mouseUp()` and clear `_dragging`. -/
def dragRelease (g : GestureType) (b : DispatchState × List DeviceAction) :
    DispatchState × List DeviceAction :=
  if g ≠ GestureType.fist ∧ b.1.dragging then
    ({ b.1 with dragging := false }, b.2 ++ [DeviceAction.pointerUp])
  else b

/-- `JarvisController._handle_gesture` (main.py:259-369): the cooldown gate
(`if current_time < self._gesture_cooldown: return`) guards the whole body;
the gesture branch runs and then a drag still pending under a non-Fist
gesture is forcibly released. -/
def handleGesture (c : ScreenSize) (s : DispatchState) (g : GestureType)
    (held : Bool) (palmX palmY fw fh now : ℚ) : DispatchState × List DeviceAction :=
  if now < s.cooldown then (s, [])
  else dragRelease g (gestureBranch c s g held palmX palmY fw fh now)

/-- One frame's worth of dispatcher input: the recognized gesture and hold
flag from the `GestureState`, the palm centre, the camera frame dimensions,
and the wall-clock time `time.time()` read at the top of the call. -/
structure DispatchInput where
  gesture : GestureType
  held : Bool
  palmX : ℚ
  palmY : ℚ
  frameW : ℚ
  frameH : ℚ
  now : ℚ
deriving DecidableEq, Repr

/-- Apply one dispatch call for a packaged input. -/
def stepInput (c : ScreenSize) (s : DispatchState) (i : DispatchInput) :
    DispatchState × List DeviceAction :=
  handleGesture c s i.gesture i.held i.palmX i.palmY i.frameW i.frameH i.now

/-- State after dispatching a whole list of inputs in order. -/
def runTrace (c : ScreenSize) (s : DispatchState) : List DispatchInput → DispatchState
  | [] => s
  | i :: rest => runTrace c (stepInput c s i).1 rest

/-- Per-call emitted action lists along a trace. -/
def traceOutputs (c : ScreenSize) (s : DispatchState) :
    List DispatchInput → List (List DeviceAction)
  | [] => []
  | i :: rest => (stepInput c s i).2 :: traceOutputs c (stepInput c s i).1 rest

/-- Timestamps along an input trace are non-decreasing (the dispatcher
reads `time.time()` once per call, so consecutive calls see non-decreasing
wall-clock values). -/
def timesMono (l : List DispatchInput) : Prop :=
  l.Pairwise (fun a b => a.now ≤ b.now)

/-- Is an action a `pointerDown`?  (Used to count drag-start emissions.) -/
def isPointerDown : DeviceAction → Bool
  | DeviceAction.pointerDown => true
  | _ => false

/-- Does an action list contain a `pointerMove`? -/
def hasPointerMove (l : List DeviceAction) : Prop :=
  ∃ x y, DeviceAction.pointerMove x y ∈ l

/-! ## Classifier lemmas and claims -/

/-- The classifier returns `pinch` or `okSign` only from its first (pinch)
branch: when the squared normalized distance is not below the squared
threshold, neither value can be produced. -/
theorem classify_no_pinch_of_far (ext : Fingers) (dSq thumbY wristY : ℚ)
    (h : ¬ dSq < PINCH_THRESHOLD ^ 2) :
    classifyGesture ext dSq thumbY wristY ≠ GestureType.pinch ∧
      classifyGesture ext dSq thumbY wristY ≠ GestureType.okSign := by
  unfold classifyGesture
  rw [if_neg h]
  split_ifs <;> exact ⟨by decide, by decide⟩

/-- The classifier never produces the `hook` variant: every branch returns
one of the other eleven values. -/
theorem classify_never_hook (ext : Fingers) (dSq thumbY wristY : ℚ) :
    classifyGesture ext dSq thumbY wristY ≠ GestureType.hook := by
  unfold classifyGesture
  split_ifs <;> decide

/-- C4 (confirmed): whenever the thumb-index distance is below the pinch
threshold (here: its square below the squared threshold), classification
returns `okSign` if middle, ring and pinky are all extended and `pinch`
otherwise — independently of the other digits and of the thumb-orientation
inputs. -/
theorem pinch_family_wins (ext : Fingers) (dSq thumbY wristY : ℚ)
    (h : dSq < PINCH_THRESHOLD ^ 2) :
    classifyGesture ext dSq thumbY wristY =
      (if ext.middle ∧ ext.ring ∧ ext.pinky then GestureType.okSign
       else GestureType.pinch) := by
  unfold classifyGesture
  rw [if_pos h]

/-- Witness for `pinch_family_wins` at a concrete input. -/
theorem pinch_family_wins_witness :
    (1 / 100 : ℚ) < PINCH_THRESHOLD ^ 2 ∧
      classifyGesture ⟨false, false, false, false, false⟩ (1 / 100) 0 0 =
        GestureType.pinch := by
  refine ⟨by norm_num [PINCH_THRESHOLD], ?_⟩
  have h := pinch_family_wins ⟨false, false, false, false, false⟩ (1 / 100) 0 0
    (by norm_num [PINCH_THRESHOLD])
  simpa using h

/-- A concrete right-hand frame in which all five digits are extended while
the thumb and index tips are close together (squared normalized distance
25/10000, well below `PINCH_THRESHOLD ^ 2 = 484/10000`). -/
def allExtendedPinchHand : HandLandmarks :=
  handOfList
    [⟨0, 0, 0⟩, ⟨0, 0, 0⟩, ⟨60, 0, 0⟩, ⟨0, 0, 0⟩, ⟨55, 0, 0⟩,
     ⟨0, 0, 0⟩, ⟨10, 0, 0⟩, ⟨0, 0, 0⟩, ⟨50, 0, 0⟩,
     ⟨100, 0, 0⟩, ⟨10, 5, 0⟩, ⟨0, 0, 0⟩, ⟨60, 5, 0⟩,
     ⟨0, 0, 0⟩, ⟨10, 10, 0⟩, ⟨0, 0, 0⟩, ⟨60, 10, 0⟩,
     ⟨0, 0, 0⟩, ⟨10, 15, 0⟩, ⟨0, 0, 0⟩, ⟨60, 15, 0⟩] "Right"

/-- C5 counterexample: a frame with all five digits extended whose thumb
and index tips are close classifies as `okSign`, not `openPalm` — the pinch
family takes priority over the open-palm catch-all. -/
theorem all_extended_can_classify_okSign :
    getExtendedFingers allExtendedPinchHand = ⟨true, true, true, true, true⟩ ∧
      classifyFrame allExtendedPinchHand = GestureType.okSign := by
  constructor
  · norm_num [getExtendedFingers, allExtendedPinchHand, handOfList, fingerIsExtended,
      distSq2, List.getD]
  · norm_num [classifyFrame, allExtendedPinchHand, handOfList, getExtendedFingers,
      fingerIsExtended, normalizedDistanceSq, classifyGesture, distSq2, normSq3,
      Fingers.count, PINCH_THRESHOLD, List.getD]

/-- C5 (amended): if all five digits are extended *and* the thumb-index
distance is not below the pinch threshold, classification yields
`openPalm` (and in particular never `none`). -/
theorem all_extended_far_openPalm (h : HandLandmarks)
    (hext : getExtendedFingers h = ⟨true, true, true, true, true⟩)
    (hfar : ¬ normalizedDistanceSq h < PINCH_THRESHOLD ^ 2) :
    classifyFrame h = GestureType.openPalm := by
  unfold classifyFrame
  rw [hext]
  unfold classifyGesture
  rw [if_neg hfar]
  simp [Fingers.count]

/-- Like `allExtendedPinchHand` but with the index tip far from the thumb
tip (squared normalized distance 3625/10000). -/
def allExtendedFarHand : HandLandmarks :=
  handOfList
    [⟨0, 0, 0⟩, ⟨0, 0, 0⟩, ⟨60, 0, 0⟩, ⟨0, 0, 0⟩, ⟨55, 0, 0⟩,
     ⟨0, 0, 0⟩, ⟨10, 0, 0⟩, ⟨0, 0, 0⟩, ⟨50, 60, 0⟩,
     ⟨100, 0, 0⟩, ⟨10, 5, 0⟩, ⟨0, 0, 0⟩, ⟨60, 5, 0⟩,
     ⟨0, 0, 0⟩, ⟨10, 10, 0⟩, ⟨0, 0, 0⟩, ⟨60, 10, 0⟩,
     ⟨0, 0, 0⟩, ⟨10, 15, 0⟩, ⟨0, 0, 0⟩, ⟨60, 15, 0⟩] "Right"

/-- Witness for `all_extended_far_openPalm` at a concrete frame. -/
theorem all_extended_far_openPalm_witness :
    classifyFrame allExtendedFarHand = GestureType.openPalm :=
  all_extended_far_openPalm allExtendedFarHand
    (by norm_num [getExtendedFingers, allExtendedFarHand, handOfList, fingerIsExtended,
      distSq2, List.getD])
    (by norm_num [normalizedDistanceSq, allExtendedFarHand, handOfList, distSq2, normSq3,
      PINCH_THRESHOLD, List.getD])

/-- C8 (confirmed): when the wrist-to-middle-knuckle reference span is below
the minimum (squared span below 1), the normalized thumb-index distance is
the sentinel (squared sentinel 1) — the guarded division is skipped — and
with the default pinch threshold the frame can classify as neither `pinch`
nor `okSign`. -/
theorem degenerate_hand_sentinel (h : HandLandmarks)
    (hsmall : normSq3 (h.landmarks 9) (h.landmarks 0) < 1) :
    normalizedDistanceSq h = 1 ∧
      classifyFrame h ≠ GestureType.pinch ∧
      classifyFrame h ≠ GestureType.okSign := by
  have h1 : normalizedDistanceSq h = 1 := by
    unfold normalizedDistanceSq
    rw [if_pos hsmall]
  have hfar : ¬ normalizedDistanceSq h < PINCH_THRESHOLD ^ 2 := by
    rw [h1]; norm_num [PINCH_THRESHOLD]
  have h2 := classify_no_pinch_of_far (getExtendedFingers h) (normalizedDistanceSq h)
    (h.landmarks 4).y (h.landmarks 0).y hfar
  exact ⟨h1, h2.1, h2.2⟩

/-- A degenerate frame: every landmark at the origin, so the hand-size
reference span is 0. -/
def zeroHand : HandLandmarks := handOfList [] "Right"

/-- Witness for `degenerate_hand_sentinel` at the all-zero frame. -/
theorem degenerate_hand_sentinel_witness :
    normalizedDistanceSq zeroHand = 1 ∧
      classifyFrame zeroHand ≠ GestureType.pinch ∧
      classifyFrame zeroHand ≠ GestureType.okSign :=
  degenerate_hand_sentinel zeroHand
    (by norm_num [zeroHand, handOfList, normSq3, List.getD])

/-- C10 (confirmed): no hand-landmark input classifies as `hook`, and the
gesture-to-action table has no entry for `hook` (nor for `none`), so their
action lookup yields nothing. -/
theorem hook_unreachable_and_unmapped :
    (∀ h : HandLandmarks, classifyFrame h ≠ GestureType.hook) ∧
      gestureActions GestureType.hook = Option.none ∧
      gestureActions GestureType.none = Option.none := by
  refine ⟨fun h => ?_, rfl, rfl⟩
  unfold classifyFrame
  exact classify_never_hook _ _ _ _

/-- Witness for `hook_unreachable_and_unmapped` at a concrete frame. -/
theorem hook_unreachable_witness :
    classifyFrame zeroHand ≠ GestureType.hook :=
  hook_unreachable_and_unmapped.1 zeroHand

/-! ## Dispatcher lemmas -/

/-- A dispatch call inside the cooldown window does nothing at all:
the gate at the top of `_handle_gesture` returns before any branch and
before the forced drag release. -/
theorem handle_gated (c : ScreenSize) (s : DispatchState) (g : GestureType)
    (held : Bool) (palmX palmY fw fh now : ℚ) (h : now < s.cooldown) :
    handleGesture c s g held palmX palmY fw fh now = (s, []) := by
  unfold handleGesture
  rw [if_pos h]


/-- The forced drag release touches no field but `_dragging`. -/
theorem dragRelease_volumeMode (g : GestureType) (b : DispatchState × List DeviceAction) :
    (dragRelease g b).1.volumeMode = b.1.volumeMode := by
  unfold dragRelease
  split_ifs <;> rfl

/-- The forced drag release preserves `_selection_mode`. -/
theorem dragRelease_selectionMode (g : GestureType) (b : DispatchState × List DeviceAction) :
    (dragRelease g b).1.selectionMode = b.1.selectionMode := by
  unfold dragRelease
  split_ifs <;> rfl

/-- The forced drag release preserves the cooldown clock. -/
theorem dragRelease_cooldown (g : GestureType) (b : DispatchState × List DeviceAction) :
    (dragRelease g b).1.cooldown = b.1.cooldown := by
  unfold dragRelease
  split_ifs <;> rfl

/-- With a FIST gesture the forced release does nothing. -/
theorem dragRelease_fist (b : DispatchState × List DeviceAction) :
    dragRelease GestureType.fist b = b := by
  unfold dragRelease
  simp

/-- With a non-FIST gesture the forced release leaves `_dragging` false. -/
theorem dragRelease_notfist_dragging (g : GestureType)
    (b : DispatchState × List DeviceAction) (hg : g ≠ GestureType.fist) :
    (dragRelease g b).1.dragging = false := by
  unfold dragRelease
  split_ifs with h
  · rfl
  · push_neg at h
    simpa using h hg

/-- With a non-FIST gesture and a pending drag, the forced release emits
`pointerUp` after the branch actions and clears `_dragging`. -/
theorem dragRelease_fires (g : GestureType) (b : DispatchState × List DeviceAction)
    (hg : g ≠ GestureType.fist) (hd : b.1.dragging = true) :
    dragRelease g b = ({ b.1 with dragging := false }, b.2 ++ [DeviceAction.pointerUp]) := by
  unfold dragRelease
  rw [if_pos ⟨hg, hd⟩]

/-- Only the PINCH branch touches `_volume_mode`. -/
theorem gestureBranch_volumeMode (c : ScreenSize) (s : DispatchState)
    (g : GestureType) (held : Bool) (palmX palmY fw fh now : ℚ)
    (hg : g ≠ GestureType.pinch) :
    (gestureBranch c s g held palmX palmY fw fh now).1.volumeMode = s.volumeMode := by
  cases g <;> try exact absurd rfl hg
  all_goals cases held
  all_goals simp only [gestureBranch, moveCursorStep]
  all_goals first
    | rfl
    | (split_ifs <;> rfl)

/-- Only the OK_SIGN branch touches `_selection_mode`. -/
theorem gestureBranch_selectionMode (c : ScreenSize) (s : DispatchState)
    (g : GestureType) (held : Bool) (palmX palmY fw fh now : ℚ)
    (hg : g ≠ GestureType.okSign) :
    (gestureBranch c s g held palmX palmY fw fh now).1.selectionMode = s.selectionMode := by
  cases g <;> try exact absurd rfl hg
  all_goals cases held
  all_goals simp only [gestureBranch, moveCursorStep]
  all_goals first
    | rfl
    | (split_ifs <;> rfl)

/-- Only the FIST branch touches `_dragging` (the forced release runs
outside `gestureBranch`). -/
theorem gestureBranch_dragging (c : ScreenSize) (s : DispatchState)
    (g : GestureType) (held : Bool) (palmX palmY fw fh now : ℚ)
    (hg : g ≠ GestureType.fist) :
    (gestureBranch c s g held palmX palmY fw fh now).1.dragging = s.dragging := by
  cases g <;> try exact absurd rfl hg
  all_goals cases held
  all_goals simp only [gestureBranch, moveCursorStep]
  all_goals first
    | rfl
    | (split_ifs <;> rfl)

/-- The FIST branch never changes the cooldown clock. -/
theorem gestureBranch_fist_cooldown (c : ScreenSize) (s : DispatchState)
    (held : Bool) (palmX palmY fw fh now : ℚ) :
    (gestureBranch c s GestureType.fist held palmX palmY fw fh now).1.cooldown =
      s.cooldown := by
  cases held
  all_goals simp only [gestureBranch, moveCursorStep]
  all_goals first
    | rfl
    | (split_ifs <;> rfl)

/-- Volume mode is preserved by any call whose gesture is not PINCH. -/
theorem handle_volumeMode (c : ScreenSize) (s : DispatchState) (g : GestureType)
    (held : Bool) (palmX palmY fw fh now : ℚ) (hg : g ≠ GestureType.pinch) :
    (handleGesture c s g held palmX palmY fw fh now).1.volumeMode = s.volumeMode := by
  unfold handleGesture
  split_ifs with h1
  · rfl
  · rw [dragRelease_volumeMode]
    exact gestureBranch_volumeMode c s g held palmX palmY fw fh now hg

/-- Selection mode is preserved by any call whose gesture is not OK_SIGN. -/
theorem handle_selectionMode (c : ScreenSize) (s : DispatchState) (g : GestureType)
    (held : Bool) (palmX palmY fw fh now : ℚ) (hg : g ≠ GestureType.okSign) :
    (handleGesture c s g held palmX palmY fw fh now).1.selectionMode = s.selectionMode := by
  unfold handleGesture
  split_ifs with h1
  · rfl
  · rw [dragRelease_selectionMode]
    exact gestureBranch_selectionMode c s g held palmX palmY fw fh now hg

/-- After any non-gated call whose gesture is not FIST, `_dragging` is
false: the branch leaves it unchanged and the forced release clears it. -/
theorem handle_notfist_dragging (c : ScreenSize) (s : DispatchState)
    (g : GestureType) (held : Bool) (palmX palmY fw fh now : ℚ)
    (hcd : ¬ now < s.cooldown) (hg : g ≠ GestureType.fist) :
    (handleGesture c s g held palmX palmY fw fh now).1.dragging = false := by
  unfold handleGesture
  rw [if_neg hcd]
  exact dragRelease_notfist_dragging g _ hg

/-- A non-FIST call can only end with `_dragging` set if it started with it
set (and the whole call was swallowed by the cooldown gate). -/
theorem handle_dragging_true (c : ScreenSize) (s : DispatchState)
    (g : GestureType) (held : Bool) (palmX palmY fw fh now : ℚ)
    (hg : g ≠ GestureType.fist)
    (h : (handleGesture c s g held palmX palmY fw fh now).1.dragging = true) :
    s.dragging = true := by
  by_cases hcd : now < s.cooldown
  · rw [handle_gated c s g held palmX palmY fw fh now hcd] at h
    exact h
  · rw [handle_notfist_dragging c s g held palmX palmY fw fh now hcd hg] at h
    exact absurd h (by simp)

/-- The forced drag release only ever appends to the branch's actions. -/
theorem dragRelease_mem (g : GestureType) (b : DispatchState × List DeviceAction)
    (a : DeviceAction) (h : a ∈ b.2) : a ∈ (dragRelease g b).2 := by
  unfold dragRelease
  split_ifs
  · simp only [List.mem_append]
    exact Or.inl h
  · exact h

/-- Actions of a held OPEN_PALM branch: exactly the continuous
`pointerMove`. -/
theorem gestureBranch_openPalm_actions (c : ScreenSize) (s : DispatchState)
    (palmX palmY fw fh now : ℚ) :
    (gestureBranch c s GestureType.openPalm true palmX palmY fw fh now).2 =
      [DeviceAction.pointerMove
        (moveCursorCalc c s.lastCursorX s.lastCursorY palmX palmY fw fh).1
        (moveCursorCalc c s.lastCursorX s.lastCursorY palmX palmY fw fh).2] := rfl

/-- Actions of a held FIST branch with no drag pending: `pointerDown` then
the continuous `pointerMove`. -/
theorem gestureBranch_fist_actions_start (c : ScreenSize) (s : DispatchState)
    (palmX palmY fw fh now : ℚ) (hd : s.dragging = false) :
    (gestureBranch c s GestureType.fist true palmX palmY fw fh now).2 =
      [DeviceAction.pointerDown,
       DeviceAction.pointerMove
        (moveCursorCalc c s.lastCursorX s.lastCursorY palmX palmY fw fh).1
        (moveCursorCalc c s.lastCursorX s.lastCursorY palmX palmY fw fh).2] := by
  simp [gestureBranch, moveCursorStep, hd]

/-- Actions of a held FIST branch with the drag already active: only the
continuous `pointerMove`. -/
theorem gestureBranch_fist_actions_continue (c : ScreenSize) (s : DispatchState)
    (palmX palmY fw fh now : ℚ) (hd : s.dragging = true) :
    (gestureBranch c s GestureType.fist true palmX palmY fw fh now).2 =
      [DeviceAction.pointerMove
        (moveCursorCalc c s.lastCursorX s.lastCursorY palmX palmY fw fh).1
        (moveCursorCalc c s.lastCursorX s.lastCursorY palmX palmY fw fh).2] := by
  simp [gestureBranch, moveCursorStep, hd]

/-- A held FIST branch always leaves `_dragging` set. -/
theorem gestureBranch_fist_dragging (c : ScreenSize) (s : DispatchState)
    (palmX palmY fw fh now : ℚ) :
    (gestureBranch c s GestureType.fist true palmX palmY fw fh now).1.dragging = true := by
  by_cases hd : s.dragging <;> simp [gestureBranch, moveCursorStep, hd]

/-! ## C1: the cooldown gate and continuous gestures -/

/-- Default screen size used for concrete traces. -/
def screenDefault : ScreenSize := ⟨1920, 1080⟩

/-- A held POINT frame at time 0: fires a left click and arms the 0.5 s
cooldown. -/
def pointInput : DispatchInput :=
  ⟨GestureType.point, true, 100, 100, 640, 480, 0⟩

/-- A held OPEN_PALM frame at time 0.1, inside the cooldown window armed by
`pointInput`. -/
def palmDuringCooldown : DispatchInput :=
  ⟨GestureType.openPalm, true, 100, 100, 640, 480, 1 / 10⟩

/-- C1 counterexample: after a held Point click at time 0 the cooldown is
armed until 0.5; a held OpenPalm dispatch at time 0.1 — a held continuous
gesture — emits *nothing* (in particular no `pointerMove`), because the
cooldown gate suppresses continuous actions too. -/
theorem openPalm_suppressed_during_cooldown :
    palmDuringCooldown.now <
        (runTrace screenDefault initialState [pointInput]).cooldown ∧
      (stepInput screenDefault (runTrace screenDefault initialState [pointInput])
          palmDuringCooldown).2 = [] := by
  have h1 : runTrace screenDefault initialState [pointInput] =
      { initialState with cooldown := 0 + 5 / 10 } := by
    simp only [runTrace]
    unfold stepInput pointInput handleGesture gestureBranch dragRelease initialState
    norm_num
  rw [h1]
  constructor
  · norm_num [palmDuringCooldown, initialState]
  · exact congrArg Prod.snd (handle_gated screenDefault _ _ _ _ _ _ _ _
      (by norm_num [palmDuringCooldown, initialState]))

/-- C1 (amended): a dispatch call strictly before the cooldown timestamp
emits no actions at all and leaves the state unchanged — continuous
gestures included; once the cooldown has elapsed, a held OpenPalm or Fist
call does emit its continuous `pointerMove`. -/
theorem cooldown_gates_all_actions (c : ScreenSize) (s : DispatchState)
    (g : GestureType) (held : Bool) (palmX palmY fw fh now : ℚ) :
    (now < s.cooldown → handleGesture c s g held palmX palmY fw fh now = (s, [])) ∧
      (¬ now < s.cooldown → held = true →
        g = GestureType.openPalm ∨ g = GestureType.fist →
        hasPointerMove (handleGesture c s g held palmX palmY fw fh now).2) := by
  constructor
  · intro h
    exact handle_gated c s g held palmX palmY fw fh now h
  · intro hcd hheld hg
    unfold handleGesture
    rw [if_neg hcd]
    subst hheld
    rcases hg with hg | hg <;> subst hg
    · exact ⟨_, _, dragRelease_mem _ _ _
        (by rw [gestureBranch_openPalm_actions]; exact List.mem_singleton.mpr rfl)⟩
    · by_cases hd : s.dragging = true
      · exact ⟨_, _, dragRelease_mem _ _ _
          (by rw [gestureBranch_fist_actions_continue c s palmX palmY fw fh now hd]
              exact List.mem_singleton.mpr rfl)⟩
      · exact ⟨_, _, dragRelease_mem _ _ _
          (by rw [gestureBranch_fist_actions_start c s palmX palmY fw fh now
                (by simpa using hd)]
              exact List.mem_cons_of_mem _ (List.mem_singleton.mpr rfl))⟩

/-- Witness for `cooldown_gates_all_actions`: both conjuncts applied at
concrete inputs (a state with cooldown 1 at time 0; the initial state with
a held OpenPalm). -/
theorem cooldown_gates_all_actions_witness :
    handleGesture screenDefault ⟨0, 0, 1, false, false, 0, 50, false⟩
        GestureType.openPalm true 100 100 640 480 0 =
      (⟨0, 0, 1, false, false, 0, 50, false⟩, []) ∧
      hasPointerMove (handleGesture screenDefault initialState
        GestureType.openPalm true 100 100 640 480 0).2 :=
  ⟨(cooldown_gates_all_actions screenDefault ⟨0, 0, 1, false, false, 0, 50, false⟩
      GestureType.openPalm true 100 100 640 480 0).1 (by norm_num),
   (cooldown_gates_all_actions screenDefault initialState
      GestureType.openPalm true 100 100 640 480 0).2
      (by norm_num [initialState]) rfl (Or.inl rfl)⟩

/-! ## C2: mode exclusivity -/

/-- A held PINCH frame at time 0 (enters volume mode). -/
def pinchInput : DispatchInput :=
  ⟨GestureType.pinch, true, 100, 100, 640, 480, 0⟩

/-- A held FIST frame at time 1 (enters drag mode). -/
def fistInput : DispatchInput :=
  ⟨GestureType.fist, true, 100, 100, 640, 480, 1⟩

/-- C2 counterexample: dispatching a held Pinch (time 0) and then a held
Fist (time 1) from the initial state leaves *both* `_volume_mode` and
`_dragging` true — the claimed mutual exclusion of the mode flags fails,
because no branch but PINCH ever clears `_volume_mode`. -/
theorem volume_and_drag_simultaneously :
    (runTrace screenDefault initialState [pinchInput, fistInput]).volumeMode = true ∧
      (runTrace screenDefault initialState [pinchInput, fistInput]).dragging = true := by
  have h1 : (stepInput screenDefault initialState pinchInput).1 =
      { initialState with volumeMode := true, volumeStartY := 100 } := by
    unfold stepInput pinchInput handleGesture gestureBranch dragRelease initialState
    norm_num
  have h2 : runTrace screenDefault initialState [pinchInput, fistInput] =
      (stepInput screenDefault { initialState with volumeMode := true, volumeStartY := 100 }
        fistInput).1 := by
    simp only [runTrace]
    rw [h1]
  rw [h2]
  have h3 : ∀ t : DispatchState, ¬ (1 : ℚ) < t.cooldown → t.dragging = false →
      (handleGesture screenDefault t GestureType.fist true 100 100 640 480 1).1.volumeMode
          = t.volumeMode ∧
        (handleGesture screenDefault t GestureType.fist true 100 100 640 480 1).1.dragging
          = true := by
    intro t hcd hdrag
    unfold handleGesture
    rw [if_neg hcd, dragRelease_fist]
    unfold gestureBranch moveCursorStep
    simp [hdrag]
  have h4 := h3 { initialState with volumeMode := true, volumeStartY := 100 }
    (by norm_num [initialState]) rfl
  exact ⟨h4.1, h4.2⟩

/-- Number of mode flags a call switches from false to true. -/
def entersCount (s t : DispatchState) : ℕ :=
  (if t.dragging = true ∧ s.dragging = false then 1 else 0) +
    (if t.volumeMode = true ∧ s.volumeMode = false then 1 else 0) +
    (if t.selectionMode = true ∧ s.selectionMode = false then 1 else 0)

/-- C2 (amended): a single dispatch call *enters* at most one mode — at
most one of `_dragging`, `_volume_mode`, `_selection_mode` changes from
false to true — but modes entered on earlier calls persist, so two or
three flags can be simultaneously true across calls. -/
theorem at_most_one_mode_entered (c : ScreenSize) (s : DispatchState)
    (g : GestureType) (held : Bool) (palmX palmY fw fh now : ℚ) :
    entersCount s (handleGesture c s g held palmX palmY fw fh now).1 ≤ 1 := by
  have hv : (handleGesture c s g held palmX palmY fw fh now).1.volumeMode = true ∧
      s.volumeMode = false → g = GestureType.pinch := by
    intro hx
    by_contra hne
    rw [handle_volumeMode c s g held palmX palmY fw fh now hne] at hx
    rw [hx.2] at hx
    exact absurd hx.1 (by simp)
  have hsel : (handleGesture c s g held palmX palmY fw fh now).1.selectionMode = true ∧
      s.selectionMode = false → g = GestureType.okSign := by
    intro hx
    by_contra hne
    rw [handle_selectionMode c s g held palmX palmY fw fh now hne] at hx
    rw [hx.2] at hx
    exact absurd hx.1 (by simp)
  have hd : (handleGesture c s g held palmX palmY fw fh now).1.dragging = true ∧
      s.dragging = false → g = GestureType.fist := by
    intro hx
    by_contra hne
    have := handle_dragging_true c s g held palmX palmY fw fh now hne hx.1
    rw [hx.2] at this
    exact absurd this (by simp)
  unfold entersCount
  by_cases h1 : (handleGesture c s g held palmX palmY fw fh now).1.dragging = true ∧
      s.dragging = false
  · by_cases h2 : (handleGesture c s g held palmX palmY fw fh now).1.volumeMode = true ∧
        s.volumeMode = false
    · exfalso
      have e1 := hd h1
      have e2 := hv h2
      rw [e1] at e2
      exact GestureType.noConfusion e2
    · by_cases h3 : (handleGesture c s g held palmX palmY fw fh now).1.selectionMode = true ∧
          s.selectionMode = false
      · exfalso
        have e1 := hd h1
        have e2 := hsel h3
        rw [e1] at e2
        exact GestureType.noConfusion e2
      · rw [if_pos h1, if_neg h2, if_neg h3]
  · by_cases h2 : (handleGesture c s g held palmX palmY fw fh now).1.volumeMode = true ∧
        s.volumeMode = false
    · by_cases h3 : (handleGesture c s g held palmX palmY fw fh now).1.selectionMode = true ∧
          s.selectionMode = false
      · exfalso
        have e1 := hv h2
        have e2 := hsel h3
        rw [e1] at e2
        exact GestureType.noConfusion e2
      · rw [if_neg h1, if_pos h2, if_neg h3]
    · rw [if_neg h1, if_neg h2]
      split_ifs <;> omega

/-! ## C7: gestures without a handler -/

/-- Characterization of a dispatch call whose gesture has no handler
(`NONE` or `HOOK`): nothing is emitted and nothing changes, except that a
pending drag is released when the call passes the cooldown gate. -/
theorem handle_unhandled_spec (c : ScreenSize) (s : DispatchState)
    (g : GestureType) (held : Bool) (palmX palmY fw fh now : ℚ)
    (hg : g = GestureType.none ∨ g = GestureType.hook) :
    (s.dragging = false ∨ now < s.cooldown →
      handleGesture c s g held palmX palmY fw fh now = (s, [])) ∧
      (s.dragging = true → ¬ now < s.cooldown →
        handleGesture c s g held palmX palmY fw fh now =
          ({ s with dragging := false }, [DeviceAction.pointerUp])) := by
  have hb : gestureBranch c s g held palmX palmY fw fh now = (s, []) := by
    rcases hg with hg | hg <;> subst hg <;> rfl
  have hgf : g ≠ GestureType.fist := by
    rcases hg with hg | hg <;> subst hg <;> simp
  constructor
  · rintro (hd | hcd)
    · by_cases hcd : now < s.cooldown
      · exact handle_gated c s g held palmX palmY fw fh now hcd
      · unfold handleGesture
        rw [if_neg hcd, hb]
        unfold dragRelease
        rw [if_neg]
        simp [hd]
    · exact handle_gated c s g held palmX palmY fw fh now hcd
  · intro hd hcd
    unfold handleGesture
    rw [if_neg hcd, hb]
    have := dragRelease_fires g (s, []) hgf (by simpa using hd)
    simpa using this

/-- C7 (amended): a dispatch call whose gesture has no handler (`NONE` or
`HOOK`) emits nothing and changes nothing — *except* the forced drag
release: if a drag is pending and the call is not swallowed by the cooldown
gate, it emits `pointerUp` and clears `_dragging`. -/
theorem unhandled_gesture_only_releases_drag (c : ScreenSize) (s : DispatchState)
    (g : GestureType) (held : Bool) (palmX palmY fw fh now : ℚ)
    (hg : g = GestureType.none ∨ g = GestureType.hook) :
    (s.dragging = false ∨ now < s.cooldown →
      handleGesture c s g held palmX palmY fw fh now = (s, [])) ∧
      (s.dragging = true → ¬ now < s.cooldown →
        handleGesture c s g held palmX palmY fw fh now =
          ({ s with dragging := false }, [DeviceAction.pointerUp])) :=
  handle_unhandled_spec c s g held palmX palmY fw fh now hg

/-- Witness for `unhandled_gesture_only_releases_drag`: a `NONE` gesture on
the initial state does nothing. -/
theorem unhandled_gesture_witness :
    handleGesture screenDefault initialState GestureType.none false
        100 100 640 480 0 = (initialState, []) :=
  (unhandled_gesture_only_releases_drag screenDefault initialState
    GestureType.none false 100 100 640 480 0 (Or.inl rfl)).1 (Or.inl rfl)

/-- A NONE frame at time 1, after a drag was started. -/
def noneInput : DispatchInput :=
  ⟨GestureType.none, false, 100, 100, 640, 480, 1⟩

/-- A held FIST frame at time 0 (used to start a drag from the initial
state). -/
def fistStartInput : DispatchInput :=
  ⟨GestureType.fist, true, 100, 100, 640, 480, 0⟩

/-- C7 counterexample: after a held Fist starts a drag, a `NONE` gesture
dispatch emits `pointerUp` and clears `_dragging` — the action list is not
empty and a mode flag changes. -/
theorem none_gesture_can_emit_pointer_up :
    (runTrace screenDefault initialState [fistStartInput]).dragging = true ∧
      (stepInput screenDefault (runTrace screenDefault initialState [fistStartInput])
          noneInput).2 = [DeviceAction.pointerUp] ∧
      (stepInput screenDefault (runTrace screenDefault initialState [fistStartInput])
          noneInput).1.dragging = false := by
  have hdrag : (runTrace screenDefault initialState [fistStartInput]).dragging = true := by
    show (handleGesture screenDefault initialState GestureType.fist true
      100 100 640 480 0).1.dragging = true
    unfold handleGesture
    rw [if_neg (by norm_num [initialState]), dragRelease_fist]
    unfold gestureBranch moveCursorStep initialState
    simp
  have hcool : (runTrace screenDefault initialState [fistStartInput]).cooldown = 0 := by
    show (handleGesture screenDefault initialState GestureType.fist true
      100 100 640 480 0).1.cooldown = 0
    unfold handleGesture
    rw [if_neg (by norm_num [initialState]), dragRelease_cooldown,
      gestureBranch_fist_cooldown]
    rfl
  have hstep := (handle_unhandled_spec screenDefault
    (runTrace screenDefault initialState [fistStartInput]) GestureType.none false
    100 100 640 480 1 (Or.inl rfl)).2 hdrag (by rw [hcool]; norm_num)
  refine ⟨hdrag, ?_, ?_⟩
  · show (handleGesture screenDefault (runTrace screenDefault initialState [fistStartInput])
      GestureType.none false 100 100 640 480 1).2 = [DeviceAction.pointerUp]
    rw [hstep]
  · show (handleGesture screenDefault (runTrace screenDefault initialState [fistStartInput])
      GestureType.none false 100 100 640 480 1).1.dragging = false
    rw [hstep]

/-! ## C3: forced drag release along traces -/

/-- `stepInput` version of `handle_gated`. -/
theorem step_gated (c : ScreenSize) (s : DispatchState) (i : DispatchInput)
    (h : i.now < s.cooldown) : stepInput c s i = (s, []) :=
  handle_gated c s i.gesture i.held i.palmX i.palmY i.frameW i.frameH i.now h

/-- A non-gated, non-FIST call with a pending drag emits `pointerUp`. -/
theorem handle_notfist_pointerUp (c : ScreenSize) (s : DispatchState)
    (g : GestureType) (held : Bool) (palmX palmY fw fh now : ℚ)
    (hcd : ¬ now < s.cooldown) (hg : g ≠ GestureType.fist)
    (hd : s.dragging = true) :
    DeviceAction.pointerUp ∈ (handleGesture c s g held palmX palmY fw fh now).2 := by
  unfold handleGesture
  rw [if_neg hcd]
  have hb : (gestureBranch c s g held palmX palmY fw fh now).1.dragging = true := by
    rw [gestureBranch_dragging c s g held palmX palmY fw fh now hg]
    exact hd
  rw [dragRelease_fires g _ hg hb]
  simp

/-- Invariant step: if a state with a pending drag always has its cooldown
in the past, the same holds after one dispatch call (a FIST branch never
changes the cooldown, and every other non-gated branch ends with the drag
released). -/
theorem handle_cooldown_inv (c : ScreenSize) (s : DispatchState)
    (g : GestureType) (held : Bool) (palmX palmY fw fh now : ℚ)
    (hs : s.dragging = true → s.cooldown ≤ now) :
    (handleGesture c s g held palmX palmY fw fh now).1.dragging = true →
      (handleGesture c s g held palmX palmY fw fh now).1.cooldown ≤ now := by
  intro hd
  by_cases hcd : now < s.cooldown
  · rw [handle_gated c s g held palmX palmY fw fh now hcd] at hd ⊢
    exact hs hd
  · by_cases hg : g = GestureType.fist
    · subst hg
      have hcool : (handleGesture c s GestureType.fist held palmX palmY fw fh now).1.cooldown
          = s.cooldown := by
        unfold handleGesture
        rw [if_neg hcd, dragRelease_fist]
        exact gestureBranch_fist_cooldown c s held palmX palmY fw fh now
      rw [hcool]
      exact le_of_not_lt hcd
    · rw [handle_notfist_dragging c s g held palmX palmY fw fh now hcd hg] at hd
      exact absurd hd (by simp)

/-- `stepInput` version of `handle_cooldown_inv`. -/
theorem step_cooldown_inv (c : ScreenSize) (s : DispatchState) (i : DispatchInput)
    (hs : s.dragging = true → s.cooldown ≤ i.now) :
    (stepInput c s i).1.dragging = true → (stepInput c s i).1.cooldown ≤ i.now :=
  handle_cooldown_inv c s i.gesture i.held i.palmX i.palmY i.frameW i.frameH i.now hs

/-- Along any trace with non-decreasing timestamps, a state with a pending
drag always has its cooldown at or before every upcoming timestamp. -/
theorem runTrace_cooldown_inv (c : ScreenSize) :
    ∀ (l : List DispatchInput) (s : DispatchState) (t : ℚ),
      l.Pairwise (fun a b => a.now ≤ b.now) →
      (∀ j ∈ l, j.now ≤ t) →
      (s.dragging = true → (∀ j ∈ l, s.cooldown ≤ j.now) ∧ s.cooldown ≤ t) →
      (runTrace c s l).dragging = true → (runTrace c s l).cooldown ≤ t := by
  intro l
  induction l with
  | nil =>
    intro s t _ _ hs hd
    simp only [runTrace] at hd ⊢
    exact (hs hd).2
  | cons i rest ih =>
    intro s t hp ht hs hd
    simp only [runTrace] at hd ⊢
    rw [List.pairwise_cons] at hp
    refine ih (stepInput c s i).1 t hp.2 (fun j hj => ht j (List.mem_cons_of_mem i hj)) ?_ hd
    intro hd2
    have hc : (stepInput c s i).1.cooldown ≤ i.now :=
      step_cooldown_inv c s i (fun h => (hs h).1 i (List.mem_cons_self i rest)) hd2
    exact ⟨fun j hj => le_trans hc (hp.1 j hj),
      le_trans hc (ht i (List.mem_cons_self i rest))⟩

/-- `stepInput` version of `handle_notfist_dragging`. -/
theorem step_notfist_dragging (c : ScreenSize) (s : DispatchState) (i : DispatchInput)
    (hcd : ¬ i.now < s.cooldown) (hg : i.gesture ≠ GestureType.fist) :
    (stepInput c s i).1.dragging = false :=
  handle_notfist_dragging c s i.gesture i.held i.palmX i.palmY i.frameW i.frameH i.now hcd hg

/-- `stepInput` version of `handle_notfist_pointerUp`. -/
theorem step_notfist_pointerUp (c : ScreenSize) (s : DispatchState) (i : DispatchInput)
    (hcd : ¬ i.now < s.cooldown) (hg : i.gesture ≠ GestureType.fist)
    (hd : s.dragging = true) :
    DeviceAction.pointerUp ∈ (stepInput c s i).2 :=
  handle_notfist_pointerUp c s i.gesture i.held i.palmX i.palmY i.frameW i.frameH i.now hcd hg hd

/-- C3 (confirmed): along any trace from the initial state with
non-decreasing `time.time()` stamps, every dispatch call whose gesture is
not FIST ends with `_dragging` false, and if a drag was pending on entry
the call emits `pointerUp`. -/
theorem nonfist_call_clears_drag (c : ScreenSize) (pre : List DispatchInput)
    (i : DispatchInput) (hmono : timesMono (pre ++ [i]))
    (hg : i.gesture ≠ GestureType.fist) :
    (stepInput c (runTrace c initialState pre) i).1.dragging = false ∧
      ((runTrace c initialState pre).dragging = true →
        DeviceAction.pointerUp ∈ (stepInput c (runTrace c initialState pre) i).2) := by
  unfold timesMono at hmono
  rw [List.pairwise_append] at hmono
  have hto : ∀ a ∈ pre, a.now ≤ i.now := fun a ha => hmono.2.2 a ha i (by simp)
  have hinv := runTrace_cooldown_inv c pre initialState i.now hmono.1 hto
    (fun hd => absurd hd (by simp [initialState]))
  by_cases hd : (runTrace c initialState pre).dragging = true
  · have hncd : ¬ i.now < (runTrace c initialState pre).cooldown :=
      not_lt.mpr (hinv hd)
    exact ⟨step_notfist_dragging c _ i hncd hg,
      fun _ => step_notfist_pointerUp c _ i hncd hg hd⟩
  · constructor
    · by_cases hcd : i.now < (runTrace c initialState pre).cooldown
      · rw [step_gated c _ i hcd]
        simpa using hd
      · exact step_notfist_dragging c _ i hcd hg
    · intro hdd
      exact absurd hdd hd

/-- Witness for `nonfist_call_clears_drag`: a drag started by a held Fist
at time 0 is released by a NONE call at time 1. -/
theorem nonfist_call_clears_drag_witness :
    (stepInput screenDefault (runTrace screenDefault initialState [fistStartInput])
        noneInput).1.dragging = false ∧
      ((runTrace screenDefault initialState [fistStartInput]).dragging = true →
        DeviceAction.pointerUp ∈ (stepInput screenDefault
          (runTrace screenDefault initialState [fistStartInput]) noneInput).2) :=
  nonfist_call_clears_drag screenDefault [fistStartInput] noneInput
    (by simp [timesMono, fistStartInput, noneInput])
    (by simp [noneInput])

/-! ## C6: held-Fist runs -/

/-- Full effect of a non-gated held FIST call: `_dragging` ends true, the
cooldown clock is untouched, and the actions are `pointerDown` (only when
no drag was pending) followed by the continuous `pointerMove`. -/
theorem handle_fist_held (c : ScreenSize) (s : DispatchState)
    (palmX palmY fw fh now : ℚ) (hcd : ¬ now < s.cooldown) :
    (handleGesture c s GestureType.fist true palmX palmY fw fh now).1.dragging = true ∧
      (handleGesture c s GestureType.fist true palmX palmY fw fh now).1.cooldown
        = s.cooldown ∧
      (handleGesture c s GestureType.fist true palmX palmY fw fh now).2 =
        (if s.dragging = true then [] else [DeviceAction.pointerDown]) ++
          [DeviceAction.pointerMove
            (moveCursorCalc c s.lastCursorX s.lastCursorY palmX palmY fw fh).1
            (moveCursorCalc c s.lastCursorX s.lastCursorY palmX palmY fw fh).2] := by
  unfold handleGesture
  rw [if_neg hcd, dragRelease_fist]
  refine ⟨gestureBranch_fist_dragging c s palmX palmY fw fh now,
    gestureBranch_fist_cooldown c s true palmX palmY fw fh now, ?_⟩
  by_cases hd : s.dragging = true
  · rw [gestureBranch_fist_actions_continue c s palmX palmY fw fh now hd]
    simp [hd]
  · rw [gestureBranch_fist_actions_start c s palmX palmY fw fh now (by simpa using hd)]
    simp [hd]

/-- `stepInput` version of `handle_fist_held`. -/
theorem step_fist_held (c : ScreenSize) (s : DispatchState) (i : DispatchInput)
    (hg : i.gesture = GestureType.fist) (hh : i.held = true)
    (hcd : ¬ i.now < s.cooldown) :
    (stepInput c s i).1.dragging = true ∧
      (stepInput c s i).1.cooldown = s.cooldown ∧
      (stepInput c s i).2 =
        (if s.dragging = true then [] else [DeviceAction.pointerDown]) ++
          [DeviceAction.pointerMove
            (moveCursorCalc c s.lastCursorX s.lastCursorY i.palmX i.palmY i.frameW i.frameH).1
            (moveCursorCalc c s.lastCursorX s.lastCursorY i.palmX i.palmY i.frameW i.frameH).2] := by
  unfold stepInput
  rw [hg, hh]
  exact handle_fist_held c s i.palmX i.palmY i.frameW i.frameH i.now hcd

/-- Tail of a held-Fist run: once the drag is active and the cooldown is at
or before every upcoming timestamp, every further held-Fist call emits a
single `pointerMove` (no `pointerDown`) and preserves the invariant. -/
theorem fist_run_aux (c : ScreenSize) :
    ∀ (l : List DispatchInput) (s : DispatchState),
      (∀ j ∈ l, j.gesture = GestureType.fist ∧ j.held = true) →
      (∀ j ∈ l, s.cooldown ≤ j.now) →
      s.dragging = true →
      ∀ o ∈ traceOutputs c s l, o.countP isPointerDown = 0 ∧ hasPointerMove o := by
  intro l
  induction l with
  | nil =>
    intro s _ _ _ o ho
    simp only [traceOutputs] at ho
    exact absurd ho (List.not_mem_nil o)
  | cons i rest ih =>
    intro s hall hcool hd o ho
    have hi := hall i (List.mem_cons_self i rest)
    have hcd : ¬ i.now < s.cooldown := not_lt.mpr (hcool i (List.mem_cons_self i rest))
    have hstep := step_fist_held c s i hi.1 hi.2 hcd
    simp only [traceOutputs] at ho
    rcases List.mem_cons.mp ho with ho | ho
    · subst ho
      rw [hstep.2.2, if_pos hd]
      constructor
      · simp [isPointerDown, List.countP_cons]
      · exact ⟨_, _, List.mem_append_right _ (List.mem_singleton.mpr rfl)⟩
    · refine ih (stepInput c s i).1
        (fun j hj => hall j (List.mem_cons_of_mem i hj))
        (fun j hj => hstep.2.1 ▸ hcool j (List.mem_cons_of_mem i hj))
        hstep.1 o ho

/-- C6 (amended): for a nonempty run of consecutive held-Fist dispatch
calls with non-decreasing timestamps, starting from a state with no drag
pending and with the first call at or past the cooldown timestamp: the
first call emits exactly one `pointerDown`, every call of the run emits the
continuous `pointerMove`, and no later call of the run emits a second
`pointerDown`. -/
theorem fist_run_one_pointer_down (c : ScreenSize) (s : DispatchState)
    (i : DispatchInput) (rest : List DispatchInput)
    (hall : ∀ j ∈ i :: rest, j.gesture = GestureType.fist ∧ j.held = true)
    (hmono : timesMono (i :: rest))
    (hcd : s.cooldown ≤ i.now) (hd : s.dragging = false) :
    ∃ firstOut restOuts,
      traceOutputs c s (i :: rest) = firstOut :: restOuts ∧
        firstOut.countP isPointerDown = 1 ∧ hasPointerMove firstOut ∧
        ∀ o ∈ restOuts, o.countP isPointerDown = 0 ∧ hasPointerMove o := by
  have hi := hall i (List.mem_cons_self i rest)
  have hncd : ¬ i.now < s.cooldown := not_lt.mpr hcd
  have hstep := step_fist_held c s i hi.1 hi.2 hncd
  unfold timesMono at hmono
  rw [List.pairwise_cons] at hmono
  refine ⟨(stepInput c s i).2, traceOutputs c (stepInput c s i).1 rest, rfl, ?_, ?_, ?_⟩
  · rw [hstep.2.2, if_neg (by simp [hd])]
    simp [isPointerDown, List.countP_cons]
  · rw [hstep.2.2, if_neg (by simp [hd])]
    exact ⟨_, _, List.mem_append_right _ (List.mem_singleton.mpr rfl)⟩
  · exact fist_run_aux c rest (stepInput c s i).1
      (fun j hj => hall j (List.mem_cons_of_mem i hj))
      (fun j hj => hstep.2.1 ▸ le_trans hcd (hmono.1 j hj))
      hstep.1

/-- Witness for `fist_run_one_pointer_down`: two held Fist frames at times
0 and 1 from the initial state. -/
theorem fist_run_one_pointer_down_witness :
    ∃ firstOut restOuts,
      traceOutputs screenDefault initialState [fistStartInput, fistInput] =
          firstOut :: restOuts ∧
        firstOut.countP isPointerDown = 1 ∧ hasPointerMove firstOut ∧
        ∀ o ∈ restOuts, o.countP isPointerDown = 0 ∧ hasPointerMove o :=
  fist_run_one_pointer_down screenDefault initialState fistStartInput [fistInput]
    (by simp [fistStartInput, fistInput])
    (by simp [timesMono, fistStartInput, fistInput])
    (by norm_num [initialState, fistStartInput]) rfl

/-- A held FIST frame at time 0.1, inside the cooldown window armed by
`pointInput`. -/
def fistDuringCooldown : DispatchInput :=
  ⟨GestureType.fist, true, 100, 100, 640, 480, 1 / 10⟩

/-- Helper: the state after a single held Point call at time 0. -/
theorem runTrace_pointInput :
    runTrace screenDefault initialState [pointInput] =
      { initialState with cooldown := 0 + 5 / 10 } := by
  simp only [runTrace]
  unfold stepInput pointInput handleGesture gestureBranch dragRelease initialState
  norm_num

/-- C6 counterexample: a maximal run consisting of one held Fist call at
time 0.1, arriving while the cooldown armed by a held Point at time 0 is
still pending, emits *nothing*: no `pointerDown` and no `pointerMove`,
contradicting the claim that the first call of every held-Fist run emits
`pointerDown` and that every call emits a `pointerMove`. -/
theorem fist_run_swallowed_by_cooldown :
    fistDuringCooldown.gesture = GestureType.fist ∧
      fistDuringCooldown.held = true ∧
      traceOutputs screenDefault (runTrace screenDefault initialState [pointInput])
        [fistDuringCooldown] = [[]] := by
  refine ⟨rfl, rfl, ?_⟩
  rw [runTrace_pointInput]
  have h := step_gated screenDefault { initialState with cooldown := 0 + 5 / 10 }
    fistDuringCooldown (by norm_num [initialState, fistDuringCooldown])
  simp only [traceOutputs]
  rw [h]

/-! ## C9: smoothing convergence -/

/-- Iterating the per-axis smoothing update of `_move_cursor` against a
constant raw target (previous position already recorded, so the
first-movement jump branch is not taken). -/
def iterSmooth (start target : Int) : ℕ → Int
  | 0 => start
  | n + 1 => smoothStep (iterSmooth start target n) target

/-- For nonnegative positions the truncation in `smoothStep` is a floor of
`(3·last + 7·target)/10`. -/
theorem smoothStep_eq_floor (s t : Int) (hs : 0 ≤ s) (ht : 0 ≤ t) :
    smoothStep s t = ⌊(3 * (s : ℚ) + 7 * t) / 10⌋ := by
  have h10 : ((s : ℚ) + ((t : ℚ) - (s : ℚ)) * (1 - 3 / 10)) = (3 * s + 7 * t) / 10 := by
    ring
  simp only [smoothStep, pyInt]
  rw [h10, if_pos]
  positivity

/-- From below the target, one smoothing step moves forward and never
passes the target. -/
theorem smoothStep_from_below (s t : Int) (hs : 0 ≤ s) (ht : 0 ≤ t) (h : s ≤ t) :
    s ≤ smoothStep s t ∧ smoothStep s t ≤ t := by
  rw [smoothStep_eq_floor s t hs ht]
  constructor
  · rw [Int.le_floor]
    have : (s : ℚ) ≤ t := by exact_mod_cast h
    linarith
  · have hq : (3 * (s : ℚ) + 7 * t) / 10 ≤ (t : ℚ) := by
      have : (s : ℚ) ≤ t := by exact_mod_cast h
      linarith
    calc ⌊(3 * (s : ℚ) + 7 * t) / 10⌋ ≤ ⌊(t : ℚ)⌋ := Int.floor_le_floor hq
      _ = t := Int.floor_intCast t

/-- From above the target, one smoothing step moves backward and never
passes the target. -/
theorem smoothStep_from_above (s t : Int) (hs : 0 ≤ s) (ht : 0 ≤ t) (h : t ≤ s) :
    t ≤ smoothStep s t ∧ smoothStep s t ≤ s := by
  rw [smoothStep_eq_floor s t hs ht]
  constructor
  · rw [Int.le_floor]
    have : (t : ℚ) ≤ s := by exact_mod_cast h
    linarith
  · have hq : (3 * (s : ℚ) + 7 * t) / 10 ≤ (s : ℚ) := by
      have : (t : ℚ) ≤ s := by exact_mod_cast h
      linarith
    calc ⌊(3 * (s : ℚ) + 7 * t) / 10⌋ ≤ ⌊(s : ℚ)⌋ := Int.floor_le_floor hq
      _ = s := Int.floor_intCast s

/-- The smoothing step keeps positions nonnegative. -/
theorem smoothStep_nonneg (s t : Int) (hs : 0 ≤ s) (ht : 0 ≤ t) :
    0 ≤ smoothStep s t := by
  rcases le_total s t with h | h
  · exact le_trans hs (smoothStep_from_below s t hs ht h).1
  · exact le_trans ht (smoothStep_from_above s t hs ht h).1

/-- One smoothing step shrinks the distance to the target by at least one
pixel until it is within one pixel. -/
theorem smoothStep_dist (s t : Int) (hs : 0 ≤ s) (ht : 0 ≤ t) :
    (smoothStep s t - t).natAbs ≤ max ((s - t).natAbs - 1) 1 := by
  rcases le_total s t with h | h
  · have hb := smoothStep_from_below s t hs ht h
    by_cases h2 : t - s ≤ 1
    · omega
    · have hstep : s + 1 ≤ smoothStep s t := by
        rw [smoothStep_eq_floor s t hs ht, Int.le_floor]
        push_cast
        have : (s : ℚ) + 2 ≤ t := by
          have : s + 2 ≤ t := by omega
          exact_mod_cast this
        linarith
      omega
  · have hb := smoothStep_from_above s t hs ht h
    by_cases h2 : s - t ≤ 1
    · omega
    · have hstep : smoothStep s t ≤ s - 1 := by
        rw [smoothStep_eq_floor s t hs ht]
        have hlt : ⌊(3 * (s : ℚ) + 7 * t) / 10⌋ < s := by
          rw [Int.floor_lt]
          have : (t : ℚ) < s := by
            have : t < s := by omega
            exact_mod_cast this
          linarith
        omega
      omega

/-- All smoothing iterates stay nonnegative. -/
theorem iterSmooth_nonneg (start target : Int) (hs : 0 ≤ start) (ht : 0 ≤ target) :
    ∀ n, 0 ≤ iterSmooth start target n := by
  intro n
  induction n with
  | zero => exact hs
  | succ n ih => exact smoothStep_nonneg _ _ ih ht

/-- The distance of the n-th smoothing iterate to the target is at most
`max (d₀ - n) 1` where `d₀` is the initial distance. -/
theorem iterSmooth_dist (start target : Int) (hs : 0 ≤ start) (ht : 0 ≤ target) :
    ∀ n, (iterSmooth start target n - target).natAbs ≤
      max ((start - target).natAbs - n) 1 := by
  intro n
  induction n with
  | zero => simp [iterSmooth]
  | succ n ih =>
    have hstep := smoothStep_dist (iterSmooth start target n) target
      (iterSmooth_nonneg start target hs ht n) ht
    show (smoothStep (iterSmooth start target n) target - target).natAbs ≤ _
    omega

/-- C9 (confirmed, at integer-pixel resolution): feeding a constant raw
target to the smoothing update of `_move_cursor` (with a previous position
already recorded), the emitted position moves monotonically toward the
target on each axis and never passes it, and after at most the initial
pixel distance many frames it stays within one pixel of the target (the
truncation to `int` makes one pixel the best possible epsilon: approaching
from below stalls at `target - 1`). -/
theorem smoothing_converges_no_overshoot (start target : Int)
    (hs : 0 ≤ start) (ht : 0 ≤ target) :
    (∀ n : ℕ,
      (iterSmooth start target n ≤ target →
        iterSmooth start target n ≤ iterSmooth start target (n + 1) ∧
          iterSmooth start target (n + 1) ≤ target) ∧
      (target ≤ iterSmooth start target n →
        iterSmooth start target (n + 1) ≤ iterSmooth start target n ∧
          target ≤ iterSmooth start target (n + 1))) ∧
    ∀ n : ℕ, (start - target).natAbs ≤ n →
      (iterSmooth start target n - target).natAbs ≤ 1 := by
  constructor
  · intro n
    have hn := iterSmooth_nonneg start target hs ht n
    constructor
    · intro hle
      have h := smoothStep_from_below (iterSmooth start target n) target hn ht hle
      exact ⟨h.1, h.2⟩
    · intro hle
      have h := smoothStep_from_above (iterSmooth start target n) target hn ht hle
      exact ⟨h.2, h.1⟩
  · intro n hn
    have := iterSmooth_dist start target hs ht n
    omega

/-- Witness for `smoothing_converges_no_overshoot` at start 100,
target 10. -/
theorem smoothing_converges_witness :
    (0 : Int) ≤ 100 ∧ (0 : Int) ≤ 10 ∧
      ∀ n : ℕ, ((100 : Int) - 10).natAbs ≤ n →
        (iterSmooth 100 10 n - 10).natAbs ≤ 1 :=
  ⟨by norm_num, by norm_num,
   (smoothing_converges_no_overshoot 100 10 (by norm_num) (by norm_num)).2⟩
